import Mathlib

/-!
Shallow embedding of the session-backed OIDC authentication core of the
trade-demo-frontend repository.

The embedding covers:
- the session authentication strategy (`src/server/common/helpers/auth/session-strategy.js`,
  function `setupSessionStrategy`, inner `authenticate`);
- the authorization-code flow handler (`src/server/auth/controller.js`,
  `authController.callback` and `authController.logout`);
- the OIDC discovery cache (`src/server/common/helpers/oidc-discovery.js`,
  function `getOidcEndpoints`).

Modelling conventions:
- ISO-8601 timestamps are abstracted to their epoch-millisecond value (`Int`);
  `date-fns`'s `subMinutes(d, 1)` subtracts 60000 ms and `isPast(d)` is the
  strict comparison `d < Date.now()`.
- JavaScript values that may be `undefined`/`null` are `Option`s; JS string
  truthiness (`if (x)`) is "present and non-empty".
- Network effects are passed in as explicit oracles (the value the `fetch` /
  `refreshAccessToken` call would produce on this request), and each operation
  returns, besides its response, the session-store state it leaves behind and
  a count of the network calls it made.
-/

deriving instance DecidableEq for Except

/-- An organisation-linkage record inside the `relationships` claim:
an opaque pair of organisation id and role. -/
structure Relationship where
  organisationId : String
  role : String
deriving DecidableEq, Repr

/-- The session record stored under the `auth` key, as built by
`authController.callback` (fields from `sessionData` in the source).
`expiresAt` is the epoch-millisecond reading of the stored ISO-8601 string. -/
structure SessionData where
  contactId : Option String
  email : Option String
  displayName : Option String
  accessToken : Option String
  refreshToken : Option String
  expiresAt : Int
  relationships : List Relationship
  roles : List String
  aal : Option String
  loa : Option String
deriving DecidableEq, Repr

/-- JavaScript truthiness of a possibly-absent string: `undefined`, `null`
and the empty string are falsy. -/
def truthyStr : Option String → Bool
  | some s => !(s == "")
  | none => false

/-- Route authentication mode, from `request.route.settings.auth.mode`. -/
inductive AuthMode
  | required
  | tryMode
  | optionalMode
deriving DecidableEq, Repr

/-- Token endpoint refresh response, as consumed by the strategy
(`access_token`, `refresh_token`, `expires_in` seconds). -/
structure TokenResponse where
  access_token : String
  refresh_token : String
  expires_in : Int
deriving DecidableEq, Repr

/-- The response the strategy's `authenticate` hands back to hapi: either
`h.authenticated({ credentials })` (with `none` standing for the empty
credentials object) or `h.redirect(url).takeover()`. -/
inductive StrategyResponse
  | authenticatedWith (credentials : Option SessionData)
  | redirectTakeover (url : String)
deriving DecidableEq, Repr

/-- Everything one evaluation of the strategy produces: the hapi response,
the session-store record left under `auth`, the value flashed under the
`redirect` key (the pending-redirect marker), and how many times
`refreshAccessToken` was invoked. -/
structure AuthResult where
  response : StrategyResponse
  storeAfter : Option SessionData
  flashed : Option String
  refreshCalls : Nat
deriving DecidableEq, Repr

/-- The strategy's expiry test `isPast(subMinutes(parseISO(expiresAt), 1))`:
true exactly when `expiresAt - 60000 < now` (strict, millisecond precision). -/
def tokenHasExpired (now expiresAt : Int) : Bool :=
  decide (expiresAt - 60000 < now)

/-- The `authenticate` function of the `yar-session` scheme registered by
`setupSessionStrategy` (session-strategy.js), with the session store read
passed in as `sessionStore` and the `refreshAccessToken` call as an oracle. -/
def authenticate (now : Int) (path : String) (authMode : AuthMode)
    (sessionStore : Option SessionData)
    (refreshAccessToken : String → Except String TokenResponse) : AuthResult :=
  match sessionStore with
  | none =>
    if authMode = AuthMode.tryMode ∨ authMode = AuthMode.optionalMode then
      { response := .authenticatedWith none, storeAfter := none,
        flashed := none, refreshCalls := 0 }
    else
      { response := .redirectTakeover "/auth/login", storeAfter := none,
        flashed := some path, refreshCalls := 0 }
  | some sessionData =>
    if tokenHasExpired now sessionData.expiresAt && truthyStr sessionData.refreshToken then
      match refreshAccessToken (sessionData.refreshToken.getD "") with
      | .ok newTokens =>
        let updatedSession : SessionData :=
          { sessionData with
            accessToken := some newTokens.access_token
            refreshToken := some newTokens.refresh_token
            expiresAt := now + newTokens.expires_in * 1000 }
        { response := .authenticatedWith (some updatedSession),
          storeAfter := some updatedSession, flashed := none, refreshCalls := 1 }
      | .error _ =>
        if authMode = AuthMode.tryMode ∨ authMode = AuthMode.optionalMode then
          { response := .authenticatedWith none, storeAfter := none,
            flashed := none, refreshCalls := 1 }
        else
          { response := .redirectTakeover "/auth/login", storeAfter := none,
            flashed := some path, refreshCalls := 1 }
    else
      { response := .authenticatedWith (some sessionData),
        storeAfter := some sessionData, flashed := none, refreshCalls := 0 }

example :
    (authenticate 0 "/dashboard" AuthMode.required none
      (fun _ => Except.error "e")).response =
      StrategyResponse.redirectTakeover "/auth/login" := by decide

/-- The ID-token payload claims the callback handler reads
(`decoded.decoded.payload` in the source); every field may be absent. -/
structure Claims where
  contactId : Option String
  email : Option String
  given_name : Option String
  relationships : Option (List Relationship)
  roles : Option (List String)
  aal : Option String
  loa : Option String
deriving DecidableEq, Repr

/-- The validated credentials Bell hands to the callback handler:
`request.auth.credentials` with `token` (the raw ID token, also used as the
access token by the handler), `refreshToken` and `expiresIn` (seconds). -/
structure BellCredentials where
  token : String
  refreshToken : Option String
  expiresIn : Int
deriving DecidableEq, Repr

/-- JavaScript `a || b` on possibly-absent strings: `b` when `a` is absent
or the empty string (falsy), otherwise `a`. -/
def jsOrString (a b : Option String) : Option String :=
  match a with
  | some s => if s = "" then b else some s
  | none => b

/-- What one invocation of the callback handler produces: the propagated
error or the redirect target, the session record left under `auth`, and
the remaining values of the one-shot `redirect` flash key. -/
structure CallbackResult where
  result : Except String String
  storeAfter : Option SessionData
  pendingAfter : List String
deriving DecidableEq, Repr

/-- `authController.callback` (auth controller source): decode the ID token,
build and persist the session record, consume the pending-redirect flash,
and redirect there (or to the root). `decodeIdToken` stands for
`jwt.token.decode` reaching into `decoded.decoded.payload`; a decode failure
is rethrown by the handler's catch block with the store untouched. -/
def callback (now : Int) (credentials : BellCredentials)
    (decodeIdToken : String → Except String Claims)
    (sessionStore : Option SessionData)
    (pendingRedirect : List String) : CallbackResult :=
  match decodeIdToken credentials.token with
  | .error e =>
    { result := .error e, storeAfter := sessionStore, pendingAfter := pendingRedirect }
  | .ok claims =>
    let sessionData : SessionData :=
      { contactId := claims.contactId
        email := claims.email
        displayName := jsOrString claims.given_name claims.email
        accessToken := some credentials.token
        refreshToken := credentials.refreshToken
        expiresAt := now + credentials.expiresIn * 1000
        relationships := claims.relationships.getD []
        roles := claims.roles.getD []
        aal := claims.aal
        loa := claims.loa }
    { result := .ok (pendingRedirect.head?.getD "/")
      storeAfter := some sessionData
      pendingAfter := [] }

/-- The endpoint metadata parsed from the provider's discovery document. -/
structure EndpointSet where
  authorization_endpoint : String
  token_endpoint : String
  end_session_endpoint : String
  jwks_uri : String
  issuer : String
deriving DecidableEq, Repr

/-- Uppercase hexadecimal digit for a value below 16. -/
def hexDigitChar (n : Nat) : Char :=
  if n < 10 then Char.ofNat (48 + n) else Char.ofNat (55 + n)

/-- The characters ECMAScript `encodeURIComponent` leaves unescaped:
ASCII letters, digits, and - _ . ! ~ * apostrophe ( ). -/
def isUnescapedEUC (c : Char) : Bool :=
  c.isAlpha || c.isDigit ||
  c == '-' || c == '_' || c == '.' || c == '!' || c == '~' || c == '*' ||
  c == Char.ofNat 39 || c == '(' || c == ')'

/-- The UTF-8 byte sequence of a character (as natural numbers below 256). -/
def utf8Bytes (c : Char) : List Nat :=
  let n := c.toNat
  if n < 128 then [n]
  else if n < 2048 then
    [192 + n / 64, 128 + n % 64]
  else if n < 65536 then
    [224 + n / 4096, 128 + n / 64 % 64, 128 + n % 64]
  else
    [240 + n / 262144, 128 + n / 4096 % 64, 128 + n / 64 % 64, 128 + n % 64]

/-- Percent-encode one character as its UTF-8 bytes, each as %XX. -/
def percentEncodeChar (c : Char) : String :=
  String.join ((utf8Bytes c).map (fun b =>
    String.mk [Char.ofNat 37, hexDigitChar (b / 16), hexDigitChar (b % 16)]))

/-- Modelled from the ECMAScript specification of the `encodeURIComponent`
builtin used by `authController.logout`: every character outside the
unescaped set is replaced by the percent-encoding of its UTF-8 bytes. -/
def encodeURIComponent (s : String) : String :=
  String.join (s.toList.map (fun c =>
    if isUnescapedEUC c then String.singleton c else percentEncodeChar c))

/-- What `authController.logout` produces: the session record left under
`auth` and the redirect URL handed to `h.redirect`. -/
structure LogoutResult where
  storeAfter : Option SessionData
  redirect : String
deriving DecidableEq, Repr

set_option linter.unusedVariables false in
/-- `authController.logout` (auth controller source): clear the session
unconditionally, then redirect to the provider's end-session endpoint with a
percent-encoded post-logout redirect URI built from the configured
protocol/host/port, the port segment dropped for 80 and 443. -/
def logout (isProduction : Bool) (host : String) (port : Nat)
    (oidcEndpoints : EndpointSet) (sessionStore : Option SessionData) : LogoutResult :=
  let protocol := if isProduction then "https" else "http"
  let postLogoutUri :=
    if port == 80 || port == 443 then protocol ++ "://" ++ host
    else protocol ++ "://" ++ host ++ ":" ++ toString port
  let logoutUrl := oidcEndpoints.end_session_endpoint ++ "?post_logout_redirect_uri="
      ++ encodeURIComponent postLogoutUri
  { storeAfter := none, redirect := logoutUrl }

example :
    encodeURIComponent "http://localhost:3000" = "http%3A%2F%2Flocalhost%3A3000" := by decide

/-- The outcome the `fetch(discoveryUrl)` call would have on this request:
a transport-level rejection, or a response with its status, status text and
the result of reading the body as JSON. -/
inductive FetchOutcome
  | networkError (message : String)
  | response (status : Nat) (statusText : String) (jsonBody : Except String EndpointSet)
deriving DecidableEq, Repr

/-- `Response.ok` of the Fetch API: status in the 2xx range. -/
def responseOk (status : Nat) : Bool :=
  decide (200 ≤ status ∧ status < 300)

/-- What one call to the discovery accessor produces: its result, the value
of the module-level `cachedOidcEndpoints` afterwards, and whether it
performed the HTTP fetch. -/
structure DiscoveryResult where
  result : Except String EndpointSet
  cacheAfter : Option EndpointSet
  fetched : Bool
deriving DecidableEq, Repr

/-- `getOidcEndpoints` (oidc-discovery.js): return the cached endpoints if
set; otherwise fetch, fail on non-2xx or body/transport errors (wrapped in
`Failed to fetch OIDC configuration:`), and cache only a successful parse. -/
def getOidcEndpoints (cachedOidcEndpoints : Option EndpointSet)
    (fetchOutcome : FetchOutcome) : DiscoveryResult :=
  match cachedOidcEndpoints with
  | some cached => { result := .ok cached, cacheAfter := some cached, fetched := false }
  | none =>
    match fetchOutcome with
    | .networkError msg =>
      { result := .error ("Failed to fetch OIDC configuration: " ++ msg),
        cacheAfter := none, fetched := true }
    | .response status statusText jsonBody =>
      if responseOk status then
        match jsonBody with
        | .ok endpoints =>
          { result := .ok endpoints, cacheAfter := some endpoints, fetched := true }
        | .error msg =>
          { result := .error ("Failed to fetch OIDC configuration: " ++ msg),
            cacheAfter := none, fetched := true }
      else
        { result := .error ("Failed to fetch OIDC configuration: OIDC discovery failed: "
            ++ toString status ++ " " ++ statusText),
          cacheAfter := none, fetched := true }

/-- Run a sequence of calls to `getOidcEndpoints`, threading the
module-level cache from one call to the next. -/
def runDiscovery : Option EndpointSet → List FetchOutcome → List DiscoveryResult
  | _, [] => []
  | cache, f :: fs =>
    let r := getOidcEndpoints cache f
    r :: runDiscovery r.cacheAfter fs

/-- A session record whose token expired 1000 ms ago and which carries no
refresh token (the state claim C1 is about). -/
def c1Session : SessionData :=
  { contactId := some "test-contact", email := none, displayName := none,
    accessToken := some "old-token", refreshToken := none, expiresAt := -1000,
    relationships := [], roles := [], aal := none, loa := none }

/-- C1 counterexample: at now = 0 the record `c1Session` is expired
(`expiresAt = -1000` is at or before now + 1 minute) and has no refresh
token, and the mode is `required` — yet the strategy leaves the session
record in place and authenticates with it, instead of clearing the record
and redirecting as the claim states. -/
theorem expiredNoRefreshTokenNotClearedCex :
    (authenticate 0 "/dashboard" AuthMode.required (some c1Session)
      (fun _ => Except.error "refresh rejected")).storeAfter = some c1Session
    ∧ (authenticate 0 "/dashboard" AuthMode.required (some c1Session)
      (fun _ => Except.error "refresh rejected")).response =
        StrategyResponse.authenticatedWith (some c1Session) := by
  exact ⟨rfl, rfl⟩

/-- C1 amended: for every request whose session record exists, is expired
(strictly within the one-minute buffer) and has no truthy refresh token,
the strategy neither clears the session nor redirects nor refreshes: it
proceeds with the stored (expired) record as the authenticated
credentials, for every mode. -/
theorem expiredSessionWithoutRefreshTokenProceeds
    (now : Int) (path : String) (mode : AuthMode) (s : SessionData)
    (oracle : String → Except String TokenResponse)
    (hexp : tokenHasExpired now s.expiresAt = true)
    (hrt : truthyStr s.refreshToken = false) :
    authenticate now path mode (some s) oracle =
      { response := .authenticatedWith (some s), storeAfter := some s,
        flashed := none, refreshCalls := 0 } := by
  simp [authenticate, hexp, hrt]

/-- Witness for the amended C1 theorem at a concrete expired record. -/
theorem expiredSessionWithoutRefreshTokenProceedsWitness :
    tokenHasExpired 0 c1Session.expiresAt = true
    ∧ truthyStr c1Session.refreshToken = false
    ∧ authenticate 0 "/dashboard" AuthMode.required (some c1Session)
        (fun _ => Except.error "refresh rejected") =
      { response := .authenticatedWith (some c1Session), storeAfter := some c1Session,
        flashed := none, refreshCalls := 0 } :=
  ⟨by decide, by decide,
    expiredSessionWithoutRefreshTokenProceeds 0 "/dashboard" AuthMode.required c1Session
      (fun _ => Except.error "refresh rejected") (by decide) (by decide)⟩

/-- A session record whose `expiresAt` is exactly now + 1 minute when
now = 0, with a refresh token present (the boundary case of claim C2). -/
def c2Session : SessionData :=
  { contactId := some "test-contact", email := none, displayName := none,
    accessToken := some "old-token", refreshToken := some "old-refresh",
    expiresAt := 60000, relationships := [], roles := [], aal := none, loa := none }

/-- C2 counterexample: at now = 0 the record `c2Session` has
`expiresAt = 60000`, i.e. at (hence "at or before") now + 1 minute, and a
refresh token is present, so the claim requires exactly one refresh
invocation — but the code's expiry test `expiresAt - 60000 < now` is
strict, so no refresh happens and the record is kept unchanged. -/
theorem refreshAtBoundaryNotInvokedCex :
    (authenticate 0 "/dashboard" AuthMode.required (some c2Session)
      (fun _ => Except.ok
        { access_token := "new-token"
          refresh_token := "new-refresh"
          expires_in := 3600 })).refreshCalls = 0
    ∧ (authenticate 0 "/dashboard" AuthMode.required (some c2Session)
      (fun _ => Except.ok
        { access_token := "new-token"
          refresh_token := "new-refresh"
          expires_in := 3600 })).storeAfter = some c2Session := by
  exact ⟨rfl, rfl⟩

/-- C2 amended: for every request whose session record exists, whose
`expiresAt` is strictly before now + 1 minute, and which has a truthy
refresh token, when the refresh call succeeds the strategy invokes the
Token Refresh Client exactly once and persists a record equal to the old
one on every field except `accessToken`, `refreshToken` and `expiresAt`,
which are taken from the refresh response (`expiresAt` = now +
`expires_in` seconds), and it proceeds with that new record as the
authenticated credentials. -/
theorem expiredSessionRefreshSuccessPreservesOtherFields
    (now : Int) (path : String) (mode : AuthMode) (s : SessionData)
    (oracle : String → Except String TokenResponse) (r : TokenResponse)
    (hexp : s.expiresAt < now + 60000)
    (hrt : truthyStr s.refreshToken = true)
    (hok : oracle (s.refreshToken.getD "") = Except.ok r) :
    ∃ u, authenticate now path mode (some s) oracle =
        { response := .authenticatedWith (some u), storeAfter := some u,
          flashed := none, refreshCalls := 1 }
      ∧ u.contactId = s.contactId ∧ u.email = s.email
      ∧ u.displayName = s.displayName ∧ u.relationships = s.relationships
      ∧ u.roles = s.roles ∧ u.aal = s.aal ∧ u.loa = s.loa
      ∧ u.accessToken = some r.access_token
      ∧ u.refreshToken = some r.refresh_token
      ∧ u.expiresAt = now + r.expires_in * 1000 := by
  have hexpb : tokenHasExpired now s.expiresAt = true := by
    unfold tokenHasExpired
    simp only [decide_eq_true_eq]
    omega
  refine ⟨{ s with
      accessToken := some r.access_token
      refreshToken := some r.refresh_token
      expiresAt := now + r.expires_in * 1000 },
    ?_, rfl, rfl, rfl, rfl, rfl, rfl, rfl, rfl, rfl, rfl⟩
  simp [authenticate, hexpb, hrt, hok]

/-- Witness for the amended C2 theorem: a record expired 1000 ms ago with
refresh token `old-refresh`, refreshed successfully at now = 0. -/
theorem expiredSessionRefreshSuccessWitness :
    ({ c2Session with expiresAt := -1000 } : SessionData).expiresAt < (0 : Int) + 60000
    ∧ truthyStr ({ c2Session with expiresAt := -1000 } : SessionData).refreshToken = true
    ∧ ∃ u, authenticate 0 "/dashboard" AuthMode.required
        (some { c2Session with expiresAt := -1000 })
        (fun _ => Except.ok
          { access_token := "new-token"
            refresh_token := "new-refresh"
            expires_in := 3600 }) =
        { response := .authenticatedWith (some u), storeAfter := some u,
          flashed := none, refreshCalls := 1 }
      ∧ u.contactId = ({ c2Session with expiresAt := -1000 } : SessionData).contactId
      ∧ u.email = ({ c2Session with expiresAt := -1000 } : SessionData).email
      ∧ u.displayName = ({ c2Session with expiresAt := -1000 } : SessionData).displayName
      ∧ u.relationships = ({ c2Session with expiresAt := -1000 } : SessionData).relationships
      ∧ u.roles = ({ c2Session with expiresAt := -1000 } : SessionData).roles
      ∧ u.aal = ({ c2Session with expiresAt := -1000 } : SessionData).aal
      ∧ u.loa = ({ c2Session with expiresAt := -1000 } : SessionData).loa
      ∧ u.accessToken = some "new-token"
      ∧ u.refreshToken = some "new-refresh"
      ∧ u.expiresAt = (0 : Int) + (3600 : Int) * 1000 :=
  ⟨by decide, by decide,
    expiredSessionRefreshSuccessPreservesOtherFields 0 "/dashboard" AuthMode.required
      { c2Session with expiresAt := -1000 }
      (fun _ => Except.ok
        { access_token := "new-token"
          refresh_token := "new-refresh"
          expires_in := 3600 })
      { access_token := "new-token", refresh_token := "new-refresh", expires_in := 3600 }
      (by decide) (by decide) rfl⟩

/-- C3 confirmed: for every request with an expired session record carrying
a truthy refresh token, when the refresh call fails with any error the
strategy clears the session record and then applies the NoSession
behaviour for the route's mode: `required` flashes the request path as
the pending-redirect marker and redirects to /auth/login; `try` and
`optional` proceed with empty credentials. -/
theorem refreshFailureClearsAndAppliesNoSession
    (now : Int) (path : String) (mode : AuthMode) (s : SessionData)
    (oracle : String → Except String TokenResponse) (msg : String)
    (hexp : tokenHasExpired now s.expiresAt = true)
    (hrt : truthyStr s.refreshToken = true)
    (herr : oracle (s.refreshToken.getD "") = Except.error msg) :
    (authenticate now path mode (some s) oracle).storeAfter = none
    ∧ (authenticate now path mode (some s) oracle).refreshCalls = 1
    ∧ (mode = AuthMode.required →
        authenticate now path mode (some s) oracle =
          { response := .redirectTakeover "/auth/login", storeAfter := none,
            flashed := some path, refreshCalls := 1 })
    ∧ ((mode = AuthMode.tryMode ∨ mode = AuthMode.optionalMode) →
        authenticate now path mode (some s) oracle =
          { response := .authenticatedWith none, storeAfter := none,
            flashed := none, refreshCalls := 1 }) := by
  cases mode <;> simp [authenticate, hexp, hrt, herr]

/-- Witness for C3 at a concrete expired record and a rejecting refresh. -/
theorem refreshFailureClearsAndAppliesNoSessionWitness :
    tokenHasExpired 0 (-1000) = true
    ∧ truthyStr (some "old-refresh") = true
    ∧ ((authenticate 0 "/dashboard" AuthMode.required
          (some { c2Session with expiresAt := -1000 })
          (fun _ => Except.error "Refresh failed")).storeAfter = none
      ∧ (authenticate 0 "/dashboard" AuthMode.required
          (some { c2Session with expiresAt := -1000 })
          (fun _ => Except.error "Refresh failed")).refreshCalls = 1
      ∧ (AuthMode.required = AuthMode.required →
          authenticate 0 "/dashboard" AuthMode.required
            (some { c2Session with expiresAt := -1000 })
            (fun _ => Except.error "Refresh failed") =
            { response := .redirectTakeover "/auth/login", storeAfter := none,
              flashed := some "/dashboard", refreshCalls := 1 })
      ∧ ((AuthMode.required = AuthMode.tryMode ∨ AuthMode.required = AuthMode.optionalMode) →
          authenticate 0 "/dashboard" AuthMode.required
            (some { c2Session with expiresAt := -1000 })
            (fun _ => Except.error "Refresh failed") =
            { response := .authenticatedWith none, storeAfter := none,
              flashed := none, refreshCalls := 1 })) :=
  ⟨by decide, by decide,
    refreshFailureClearsAndAppliesNoSession 0 "/dashboard" AuthMode.required
      { c2Session with expiresAt := -1000 }
      (fun _ => Except.error "Refresh failed") "Refresh failed"
      (by decide) (by decide) rfl⟩

/-- C4 confirmed: for every request whose session record's `expiresAt` is
strictly more than one minute in the future, the strategy authenticates
with the stored record as credentials, leaves the store unchanged, flashes
nothing, and never invokes the Token Refresh Client. -/
theorem validSessionAuthenticatesWithoutRefresh
    (now : Int) (path : String) (mode : AuthMode) (s : SessionData)
    (oracle : String → Except String TokenResponse)
    (h : now + 60000 < s.expiresAt) :
    authenticate now path mode (some s) oracle =
      { response := .authenticatedWith (some s), storeAfter := some s,
        flashed := none, refreshCalls := 0 } := by
  have hexp : tokenHasExpired now s.expiresAt = false := by
    unfold tokenHasExpired
    simp only [decide_eq_false_iff_not]
    omega
  simp [authenticate, hexp]

/-- Witness for C4: a record expiring one hour from now = 0. -/
theorem validSessionAuthenticatesWithoutRefreshWitness :
    (0 : Int) + 60000 < ({ c2Session with expiresAt := 3600000 } : SessionData).expiresAt
    ∧ authenticate 0 "/dashboard" AuthMode.required
        (some { c2Session with expiresAt := 3600000 })
        (fun _ => Except.error "refresh should not be called") =
      { response := .authenticatedWith (some { c2Session with expiresAt := 3600000 }),
        storeAfter := some { c2Session with expiresAt := 3600000 },
        flashed := none, refreshCalls := 0 } :=
  ⟨by decide,
    validSessionAuthenticatesWithoutRefresh 0 "/dashboard" AuthMode.required
      { c2Session with expiresAt := 3600000 }
      (fun _ => Except.error "refresh should not be called") (by decide)⟩

/-- C5 confirmed: for every request with no session record under `auth`,
mode `required` flashes the request path as the pending-redirect marker
and short-circuits with a redirect to /auth/login, while modes `try` and
`optional` proceed with empty credentials, flashing and redirecting
nothing; no refresh is attempted in either case. -/
theorem noSessionModeBehavior (now : Int) (path : String)
    (oracle : String → Except String TokenResponse) :
    authenticate now path AuthMode.required none oracle =
      { response := .redirectTakeover "/auth/login", storeAfter := none,
        flashed := some path, refreshCalls := 0 }
    ∧ authenticate now path AuthMode.tryMode none oracle =
      { response := .authenticatedWith none, storeAfter := none,
        flashed := none, refreshCalls := 0 }
    ∧ authenticate now path AuthMode.optionalMode none oracle =
      { response := .authenticatedWith none, storeAfter := none,
        flashed := none, refreshCalls := 0 } := by
  refine ⟨?_, ?_, ?_⟩ <;> simp [authenticate]

/-- An ID-token claim set whose `given_name` is present but empty, with an
email present (the case separating `||` from nullish coalescing). -/
def c6Claims : Claims :=
  { contactId := some "contact-1", email := some "user@example.com",
    given_name := some "", relationships := none, roles := none,
    aal := none, loa := none }

/-- C6 counterexample: with `given_name` present but equal to the empty
string and email `user@example.com`, the callback persists
`displayName = "user@example.com"` — yet `given_name ?? email` (nullish
coalescing, which the claim states) keeps the present empty string. The
code uses JavaScript `||`, which also falls back on an empty (falsy)
`given_name`, so the fallback is not "exactly when the ID token has no
given_name claim". -/
theorem displayNameEmptyGivenNameCex :
    ((callback 0 { token := "id-token", refreshToken := some "rt", expiresIn := 3600 }
      (fun _ => Except.ok c6Claims) none []).storeAfter.bind SessionData.displayName)
      = some "user@example.com"
    ∧ Option.orElse c6Claims.given_name (fun _ => c6Claims.email) = some "" :=
  ⟨rfl, rfl⟩

/-- C6 amended: for every successful callback, the persisted `displayName`
equals the email claim when `given_name` is absent or empty (JavaScript
falsy), and equals `given_name` otherwise — the code computes
`given_name || email`, not `given_name ?? email`. -/
theorem displayNameFallsBackOnFalsyGivenName
    (now : Int) (cred : BellCredentials)
    (decodeOracle : String → Except String Claims)
    (store : Option SessionData) (pending : List String) (claims : Claims)
    (hok : decodeOracle cred.token = Except.ok claims) :
    ∃ u, (callback now cred decodeOracle store pending).storeAfter = some u
      ∧ u.displayName =
          (if claims.given_name = none ∨ claims.given_name = some ""
           then claims.email else claims.given_name) := by
  simp only [callback, hok]
  refine ⟨_, rfl, ?_⟩
  cases hg : claims.given_name with
  | none => simp [jsOrString, hg]
  | some s =>
    by_cases hs : s = ""
    · simp [jsOrString, hg, hs]
    · simp [jsOrString, hg, hs]

/-- Witness for the amended C6 theorem at a concrete claim set with a
non-empty given name. -/
theorem displayNameFallsBackOnFalsyGivenNameWitness :
    (fun _ => Except.ok { c6Claims with given_name := some "Grace" } :
        String → Except String Claims) "id-token"
      = Except.ok { c6Claims with given_name := some "Grace" }
    ∧ ∃ u, (callback 0 { token := "id-token", refreshToken := some "rt", expiresIn := 3600 }
        (fun _ => Except.ok { c6Claims with given_name := some "Grace" }) none []).storeAfter
        = some u
      ∧ u.displayName =
          (if ({ c6Claims with given_name := some "Grace" } : Claims).given_name = none
              ∨ ({ c6Claims with given_name := some "Grace" } : Claims).given_name = some ""
           then ({ c6Claims with given_name := some "Grace" } : Claims).email
           else ({ c6Claims with given_name := some "Grace" } : Claims).given_name) :=
  ⟨rfl,
    displayNameFallsBackOnFalsyGivenName 0
      { token := "id-token", refreshToken := some "rt", expiresIn := 3600 }
      (fun _ => Except.ok { c6Claims with given_name := some "Grace" }) none []
      { c6Claims with given_name := some "Grace" } rfl⟩

/-- An ID-token claim set lacking the required `contactId` claim. -/
def c7Claims : Claims :=
  { contactId := none, email := some "user@example.com", given_name := some "Grace",
    relationships := none, roles := none, aal := none, loa := none }

/-- C7 counterexample: a decodable ID token with no `contactId` claim does
not make the callback fail — the invocation succeeds (redirects to `/`)
and a partial session record with `contactId` absent IS persisted,
contradicting "missing required claim ⇒ error propagates and the session
store is unchanged". -/
theorem missingContactIdStillPersistsCex :
    (callback 0 { token := "id-token", refreshToken := some "rt", expiresIn := 3600 }
      (fun _ => Except.ok c7Claims) none []).result = Except.ok "/"
    ∧ (callback 0 { token := "id-token", refreshToken := some "rt", expiresIn := 3600 }
      (fun _ => Except.ok c7Claims) none []).storeAfter ≠ none
    ∧ ((callback 0 { token := "id-token", refreshToken := some "rt", expiresIn := 3600 }
      (fun _ => Except.ok c7Claims) none []).storeAfter.map SessionData.contactId)
      = some none := by
  refine ⟨rfl, ?_, rfl⟩
  decide

/-- C7 amended: the only failures of the callback are ID-token decode
errors; on a decode error the error propagates unrecovered and neither the
session store nor the pending-redirect marker changes. A missing claim is
not a failure (see the counterexample: a partial record is persisted). -/
theorem decodeFailurePropagatesWithoutPersisting
    (now : Int) (cred : BellCredentials)
    (decodeOracle : String → Except String Claims)
    (store : Option SessionData) (pending : List String) (e : String)
    (herr : decodeOracle cred.token = Except.error e) :
    callback now cred decodeOracle store pending =
      { result := .error e, storeAfter := store, pendingAfter := pending } := by
  simp [callback, herr]

/-- Witness for the amended C7 theorem: a malformed ID token at a concrete
store and pending marker. -/
theorem decodeFailurePropagatesWithoutPersistingWitness :
    (fun _ => Except.error "invalid JWT" : String → Except String Claims) "garbage"
      = Except.error "invalid JWT"
    ∧ callback 0 { token := "garbage", refreshToken := none, expiresIn := 3600 }
        (fun _ => Except.error "invalid JWT") (some c1Session) ["/dashboard"] =
      { result := .error "invalid JWT", storeAfter := some c1Session,
        pendingAfter := ["/dashboard"] } :=
  ⟨rfl,
    decodeFailurePropagatesWithoutPersisting 0
      { token := "garbage", refreshToken := none, expiresIn := 3600 }
      (fun _ => Except.error "invalid JWT") (some c1Session) ["/dashboard"]
      "invalid JWT" rfl⟩

/-- C8 confirmed: every logout invocation clears the session record,
produces an identical response whether or not a session existed
(idempotent), and redirects to
`end_session_endpoint?post_logout_redirect_uri=<encoded>`, where the
encoded part is the percent-encoding of the URI built from the configured
protocol, host and port, the port segment omitted exactly when the port is
80 or 443. -/
theorem logoutClearsSessionAndRedirects
    (isProduction : Bool) (host : String) (port : Nat)
    (endpoints : EndpointSet) (store : Option SessionData) :
    logout isProduction host port endpoints store
      = logout isProduction host port endpoints none
    ∧ (logout isProduction host port endpoints store).storeAfter = none
    ∧ (logout isProduction host port endpoints store).redirect =
        endpoints.end_session_endpoint ++ "?post_logout_redirect_uri=" ++
          encodeURIComponent
            (if port = 80 ∨ port = 443
             then (if isProduction then "https" else "http") ++ "://" ++ host
             else (if isProduction then "https" else "http") ++ "://" ++ host
               ++ ":" ++ toString port) := by
  refine ⟨rfl, rfl, ?_⟩
  unfold logout
  by_cases h : port = 80 ∨ port = 443
  · have hb : (port == 80 || port == 443) = true := by
      rcases h with h | h <;> simp [h]
    simp [hb, h]
  · have hb : (port == 80 || port == 443) = false := by
      push_neg at h
      simp [h.1, h.2]
    simp [hb, h]

/-- Reading the accessor with a populated cache returns the cached object
without fetching. -/
theorem getOidcEndpoints_cached (e : EndpointSet) (f : FetchOutcome) :
    getOidcEndpoints (some e) f =
      { result := .ok e, cacheAfter := some e, fetched := false } := rfl

/-- A successful call leaves exactly its result in the cache. -/
theorem getOidcEndpoints_ok_cacheAfter (cache : Option EndpointSet)
    (f : FetchOutcome) (e : EndpointSet)
    (h : (getOidcEndpoints cache f).result = .ok e) :
    (getOidcEndpoints cache f).cacheAfter = some e := by
  cases cache with
  | some c =>
    simp only [getOidcEndpoints] at h ⊢
    cases h
    rfl
  | none =>
    cases f with
    | networkError m => simp [getOidcEndpoints] at h
    | response st stx body =>
      by_cases hok : responseOk st
      · cases body with
        | ok ep =>
          simp only [getOidcEndpoints, hok, if_true] at h ⊢
          cases h
          rfl
        | error m => simp [getOidcEndpoints, hok] at h
      · simp [getOidcEndpoints, hok] at h

/-- Every call made with a populated cache returns the cached object and
skips the fetch, however many calls follow. -/
theorem runDiscovery_cached (e : EndpointSet) (fs : List FetchOutcome) :
    runDiscovery (some e) fs =
      List.replicate fs.length
        { result := .ok e, cacheAfter := some e, fetched := false } := by
  induction fs with
  | nil => rfl
  | cons f fs ih =>
    simp only [runDiscovery, getOidcEndpoints_cached, List.length_cons,
      List.replicate_succ]
    exact congrArg _ ih

/-- C9 confirmed: after any call to `getOidcEndpoints` that succeeds with
endpoint set `e`, every subsequent call — whatever the network would now
return — yields the identical cached object `e` and performs no fetch,
for the remainder of the process (every suffix of calls). -/
theorem discoveryCacheIdempotentAfterSuccess
    (cache : Option EndpointSet) (f : FetchOutcome) (e : EndpointSet)
    (fs : List FetchOutcome)
    (h : (getOidcEndpoints cache f).result = .ok e) :
    runDiscovery (getOidcEndpoints cache f).cacheAfter fs =
      List.replicate fs.length
        { result := .ok e, cacheAfter := some e, fetched := false } := by
  rw [getOidcEndpoints_ok_cacheAfter cache f e h]
  exact runDiscovery_cached e fs

/-- A concrete discovery document for the discovery-cache witnesses. -/
def ep0 : EndpointSet :=
  { authorization_endpoint := "https://idp.example/authorize",
    token_endpoint := "https://idp.example/token",
    end_session_endpoint := "https://idp.example/logout",
    jwks_uri := "https://idp.example/jwks",
    issuer := "https://idp.example" }

/-- Witness for C9: a first successful fetch, then a network outage and a
server error — both later calls still return the cached endpoints without
fetching. -/
theorem discoveryCacheIdempotentAfterSuccessWitness :
    (getOidcEndpoints none (FetchOutcome.response 200 "OK" (Except.ok ep0))).result
      = Except.ok ep0
    ∧ runDiscovery
        (getOidcEndpoints none (FetchOutcome.response 200 "OK" (Except.ok ep0))).cacheAfter
        [FetchOutcome.networkError "connection refused",
         FetchOutcome.response 500 "Server Error" (Except.error "bad json")] =
      List.replicate 2
        { result := Except.ok ep0, cacheAfter := some ep0, fetched := false } :=
  ⟨rfl,
    discoveryCacheIdempotentAfterSuccess none
      (FetchOutcome.response 200 "OK" (Except.ok ep0)) ep0
      [FetchOutcome.networkError "connection refused",
       FetchOutcome.response 500 "Server Error" (Except.error "bad json")] rfl⟩

/-- A call that starts with an empty cache always performs the fetch. -/
theorem getOidcEndpoints_none_fetches (f : FetchOutcome) :
    (getOidcEndpoints none f).fetched = true := by
  cases f with
  | networkError m => rfl
  | response st stx body =>
    by_cases hok : responseOk st
    · cases body <;> simp [getOidcEndpoints, hok]
    · simp [getOidcEndpoints, hok]

/-- C10 confirmed: a failing call (non-2xx, transport error, or JSON body
error) leaves the cache exactly as it was — in particular still unset —
so the next call performs the HTTP fetch again instead of returning a
cached failure. -/
theorem discoveryFailureLeavesCacheUnset
    (cache : Option EndpointSet) (f f2 : FetchOutcome) (msg : String)
    (h : (getOidcEndpoints cache f).result = Except.error msg) :
    (getOidcEndpoints cache f).cacheAfter = cache
    ∧ (getOidcEndpoints (getOidcEndpoints cache f).cacheAfter f2).fetched = true := by
  cases cache with
  | some c => simp [getOidcEndpoints] at h
  | none =>
    have hcache : (getOidcEndpoints none f).cacheAfter = none := by
      cases f with
      | networkError m => rfl
      | response st stx body =>
        by_cases hok : responseOk st
        · cases body with
          | ok ep => simp [getOidcEndpoints, hok] at h
          | error m => simp [getOidcEndpoints, hok]
        · simp [getOidcEndpoints, hok]
    refine ⟨hcache, ?_⟩
    rw [hcache]
    exact getOidcEndpoints_none_fetches f2

/-- Witness for C10: a 500 response fails and caches nothing; the next
call (here succeeding) performs the fetch. -/
theorem discoveryFailureLeavesCacheUnsetWitness :
    (getOidcEndpoints none
        (FetchOutcome.response 500 "Internal Server Error" (Except.ok ep0))).result
      = Except.error
          "Failed to fetch OIDC configuration: OIDC discovery failed: 500 Internal Server Error"
    ∧ ((getOidcEndpoints none
          (FetchOutcome.response 500 "Internal Server Error" (Except.ok ep0))).cacheAfter = none
      ∧ (getOidcEndpoints
          (getOidcEndpoints none
            (FetchOutcome.response 500 "Internal Server Error" (Except.ok ep0))).cacheAfter
          (FetchOutcome.response 200 "OK" (Except.ok ep0))).fetched = true) :=
  ⟨rfl,
    discoveryFailureLeavesCacheUnset none
      (FetchOutcome.response 500 "Internal Server Error" (Except.ok ep0))
      (FetchOutcome.response 200 "OK" (Except.ok ep0))
      "Failed to fetch OIDC configuration: OIDC discovery failed: 500 Internal Server Error"
      rfl⟩
